import Mathlib

/-!
Verification of the Shipment Optimization Engine
(src/optimization_engine_v2.py) against its natural-language
specification.  Floats are modelled as rationals, datetimes as integer
ordinals (Python's datetime.toordinal), and the Monte-Carlo random draws
as an explicit jitter matrix parameter.  Fallible Python code (KeyError,
ZeroDivisionError) is modelled with Option.
-/

namespace PharmaOpt

/-- Embedding of the BatchItem dataclass (optimization_engine_v2.py lines
50-65).  due_date is the ordinal of the parsed date. -/
structure BatchItem where
  batch_id : String
  product : String
  quantity : Nat
  value_eur : ℚ
  weight_kg : ℚ
  volume_m3 : ℚ
  priority : String
  due_date : Int
  current_station : String
  destination : String
  days_in_queue : Nat
deriving DecidableEq

/-- Embedding of the Route dataclass (lines 67-79). -/
structure Route where
  route_id : String
  origin : String
  destination : String
  transport_mode : String
  capacity_kg : ℚ
  capacity_m3 : ℚ
  cost_per_kg : ℚ
  transit_days : Int
deriving DecidableEq

/-- Route.total_cost (line 78-79): weight_kg * cost_per_kg. -/
def Route.total_cost (r : Route) (weight_kg : ℚ) : ℚ :=
  weight_kg * r.cost_per_kg

/-- A container dict as built by _optimize_container_packing
(lines 315-321): member list, running totals and the fixed caps. -/
structure Container where
  items : List BatchItem
  total_weight : ℚ
  total_volume : ℚ
  max_weight : ℚ
  max_volume : ℚ
deriving DecidableEq

/-- The initial current_container of _optimize_container_packing
(lines 315-321): empty, totals 0, caps 25000 kg / 12500 m3. -/
def emptyContainer : Container :=
  { items := [], total_weight := 0, total_volume := 0,
    max_weight := 25000, max_volume := 12500 }

/-- The loop of _optimize_container_packing (lines 323-341): for each
batch in order, add it to the current container when both capacity
checks pass, otherwise seal the current container (only if non-empty)
and start a fresh one seeded with the batch; flush the final container
at the end (only if non-empty). -/
def packAux : Container → List BatchItem → List Container
  | cur, [] => if cur.items.isEmpty then [] else [cur]
  | cur, b :: rest =>
    if cur.total_weight + b.weight_kg ≤ cur.max_weight ∧
        cur.total_volume + b.volume_m3 ≤ cur.max_volume then
      packAux { cur with
                items := cur.items ++ [b],
                total_weight := cur.total_weight + b.weight_kg,
                total_volume := cur.total_volume + b.volume_m3 } rest
    else
      (if cur.items.isEmpty then [] else [cur]) ++
        packAux { items := [b], total_weight := b.weight_kg,
                  total_volume := b.volume_m3,
                  max_weight := 25000, max_volume := 12500 } rest

/-- _optimize_container_packing (lines 312-343).  The mode_assign
argument is received, as in the source, and never read. -/
def optimize_container_packing (batches : List BatchItem)
    (mode_assign : List (String × Option String)) : List Container :=
  packAux emptyContainer batches

theorem packAux_flatten (bs : List BatchItem) :
    ∀ cur : Container,
      ((packAux cur bs).map Container.items).flatten = cur.items ++ bs := by
  induction bs with
  | nil =>
    intro cur
    by_cases h : cur.items.isEmpty
    · rw [List.isEmpty_iff] at h
      simp [packAux, h]
    · simp [packAux, h]
  | cons b rest ih =>
    intro cur
    by_cases hfit : cur.total_weight + b.weight_kg ≤ cur.max_weight ∧
        cur.total_volume + b.volume_m3 ≤ cur.max_volume
    · rw [packAux, if_pos hfit, ih]
      simp
    · rw [packAux, if_neg hfit]
      by_cases hemp : cur.items.isEmpty
      · rw [List.isEmpty_iff] at hemp
        simp [hemp, ih]
      · simp [hemp, ih]

/-- A routed container: the container dict after _optimize_routing added
the keys route (possibly None) and route_cost (lines 361-367). -/
structure RoutedContainer where
  base : Container
  route : Option Route
  route_cost : ℚ
deriving DecidableEq

/-- The best-route scan shared by _heuristic_mode_selection (lines
293-302) and _optimize_routing (lines 350-359): walk the route list,
keeping the first feasible route of strictly smallest
Route.total_cost w; best_cost starts at float inf, modelled by the
none accumulator (any finite cost beats it). -/
def bestRouteAux (w v : ℚ) : Option (Route × ℚ) → List Route → Option (Route × ℚ)
  | best, [] => best
  | none, r :: rs =>
    if w ≤ r.capacity_kg ∧ v ≤ r.capacity_m3 then
      bestRouteAux w v (some (r, r.total_cost w)) rs
    else bestRouteAux w v none rs
  | some p, r :: rs =>
    if w ≤ r.capacity_kg ∧ v ≤ r.capacity_m3 then
      if r.total_cost w < p.2 then bestRouteAux w v (some (r, r.total_cost w)) rs
      else bestRouteAux w v (some p) rs
    else bestRouteAux w v (some p) rs

/-- _optimize_routing (lines 345-371): attach to each container the
cheapest feasible route; when none is feasible, attach the first route
of the list (none when the list is empty) with route_cost 0. -/
def optimize_routing (containers : List Container) (routes : List Route) :
    List RoutedContainer :=
  containers.map fun c =>
    match bestRouteAux c.total_weight c.total_volume none routes with
    | some p => { base := c, route := some p.1, route_cost := p.2 }
    | none => { base := c, route := routes.head?, route_cost := 0 }

/-- The constraints dict as populated by
OptimizationService.run_optimization (optimization.py lines 110-115). -/
structure Constraints where
  alpha : ℚ
  max_transit_days : Int
  min_otif_rate : ℚ
deriving DecidableEq

/-- Default constraints of optimization.py lines 111-115. -/
def defaultConstraints : Constraints :=
  { alpha := 1/100, max_transit_days := 21, min_otif_rate := 4/5 }

/-- The dict returned by _validate_otif_constraints (lines 387-392). -/
structure OtifResult where
  otif_rate : ℚ
  on_time_containers : Nat
  total_containers : Nat
  meets_target : Bool
deriving DecidableEq

/-- The on-time test of lines 378-383: a container counts iff it has a
route and that route's transit_days is at most 14. -/
def containerOnTime (c : RoutedContainer) : Bool :=
  match c.route with
  | some r => decide (r.transit_days ≤ 14)
  | none => false

/-- _validate_otif_constraints (lines 373-392).  The constraints dict is
received and never read; the target threshold is the literal 0.8. -/
def validate_otif_constraints (routed : List RoutedContainer)
    (constraints : Constraints) : OtifResult :=
  let total := routed.length
  let on_time := (routed.filter containerOnTime).length
  let rate : ℚ := if 0 < total then (on_time : ℚ) / (total : ℚ) else 0
  { otif_rate := rate, on_time_containers := on_time,
    total_containers := total, meets_target := decide ((4 : ℚ)/5 ≤ rate) }

/-- The dict returned by _monte_carlo_risk_assessment (lines 187-219),
with the nested otif and delay statistics flattened into fields. -/
structure RiskResult where
  otif_mean : ℚ
  probability_below_80 : ℚ
  mean_delay_days : ℚ
  p95_delay_days : ℚ
  risk_score : ℚ
deriving DecidableEq

/-- The fixed fallback of lines 186-197, returned when the extracted
transit list is empty. -/
def defaultRiskResult : RiskResult :=
  { otif_mean := 4/5, probability_below_80 := 1/5,
    mean_delay_days := 2, p95_delay_days := 5, risk_score := 25 }

/-- Transit-day extraction of lines 172-182: the route's transit_days,
or the default 14 when the container has no route. -/
def containerTransit (c : RoutedContainer) : ℚ :=
  match c.route with
  | some r => (r.transit_days : ℚ)
  | none => 14

/-- Due-date extraction of lines 173-183: earliest member due date when
the container has a route and members, today otherwise. -/
def containerDue (c : RoutedContainer) (today : Int) : Int :=
  match c.route with
  | some _ =>
    match c.base.items with
    | [] => today
    | b :: bs => (bs.map BatchItem.due_date).foldl min b.due_date
  | none => today

/-- Per-trial on-time count of line 205: one indicator per container,
comparing slack (due minus today) against arrival (transit plus
jitter), summed along the container axis. -/
def onTimeSum : List ℚ → List ℚ → List ℚ → ℚ
  | t :: ts, s :: ss, j :: js =>
    (if t + j ≤ s then (1 : ℚ) else 0) + onTimeSum ts ss js
  | _, _, _ => 0

/-- Per-trial delay total of line 207: arrival minus slack clipped at
0, summed along the container axis. -/
def delaySum : List ℚ → List ℚ → List ℚ → ℚ
  | t :: ts, s :: ss, j :: js => max (t + j - s) 0 + delaySum ts ss js
  | _, _, _ => 0

/-- One trial's OTIF fraction (on_time.mean(axis=1), line 206): on-time
count over the number of containers. -/
def otifScore (transit slack row : List ℚ) : ℚ :=
  onTimeSum transit slack row / (transit.length : ℚ)

/-- One trial's mean delay (line 207): clipped delay total over the
number of containers. -/
def delayMeanRow (transit slack row : List ℚ) : ℚ :=
  delaySum transit slack row / (transit.length : ℚ)

/-- The composite risk score of line 218:
(1 - otif_scores.mean()) * 50 + min(delays.mean() * 5, 50). -/
def riskScore (transit slack : List ℚ) (jitter : List (List ℚ)) : ℚ :=
  let om := (jitter.map (otifScore transit slack)).sum / (jitter.length : ℚ)
  let dm := (jitter.map (delayMeanRow transit slack)).sum / (jitter.length : ℚ)
  (1 - om) * 50 + min (dm * 5) 50

/-- np.percentile(xs, 95) (line 216): sort ascending, take the linearly
interpolated value at fractional rank 0.95 * (n - 1). -/
def percentile95 (xs : List ℚ) : ℚ :=
  let s := xs.mergeSort (fun a b => decide (a ≤ b))
  match s with
  | [] => 0
  | _ =>
    let pos : ℚ := (95 * ((s.length : ℚ) - 1)) / 100
    let lo : Nat := Int.toNat ⌊pos⌋
    let frac : ℚ := pos - (lo : ℚ)
    let x := s.getD lo 0
    let y := s.getD (lo + 1) x
    x + frac * (y - x)

/-- _monte_carlo_risk_assessment (lines 165-219).  The rng.normal draw
of line 203 is the explicit jitter matrix (one row per trial, one
column per container); today stands for datetime.now().toordinal(). -/
def monte_carlo_risk_assessment (routed : List RoutedContainer)
    (today : Int) (jitter : List (List ℚ)) : RiskResult :=
  let transit := routed.map containerTransit
  let slack := routed.map fun c => ((containerDue c today : ℚ) - (today : ℚ))
  if transit.isEmpty then defaultRiskResult
  else
    let scores := jitter.map (otifScore transit slack)
    let delays := jitter.map (delayMeanRow transit slack)
    { otif_mean := scores.sum / (jitter.length : ℚ),
      probability_below_80 :=
        ((scores.filter fun x => decide (x < 4/5)).length : ℚ) / (jitter.length : ℚ),
      mean_delay_days := delays.sum / (jitter.length : ℚ),
      p95_delay_days := percentile95 delays,
      risk_score := riskScore transit slack jitter }

/-- One row of the shipment plan compiled at lines 398-408. -/
structure ContainerPlan where
  container_id : String
  route_id : String
  transport_mode : String
  total_weight_kg : ℚ
  total_volume_m3 : ℚ
  route_cost_eur : ℚ
  num_batches : Nat
  utilization_weight : ℚ
  utilization_volume : ℚ
deriving DecidableEq

/-- Zero-padded container index of line 399 (f-string 03d format). -/
def pad3 (n : Nat) : String :=
  if n < 10 then "00" ++ toString n
  else if n < 100 then "0" ++ toString n
  else toString n

/-- _compile_shipment_plan (lines 394-410).  Utilization divides the
container totals by the container caps (25000 / 12500 as set by
packing), which are never zero for packed containers. -/
def compile_shipment_plan (routed : List RoutedContainer) : List ContainerPlan :=
  routed.enum.map fun p =>
    { container_id := "CONT_" ++ pad3 (p.1 + 1),
      route_id := match p.2.route with | some r => r.route_id | none => "N/A",
      transport_mode :=
        match p.2.route with | some r => r.transport_mode | none => "N/A",
      total_weight_kg := p.2.base.total_weight,
      total_volume_m3 := p.2.base.total_volume,
      route_cost_eur := p.2.route_cost,
      num_batches := p.2.base.items.length,
      utilization_weight := p.2.base.total_weight / p.2.base.max_weight,
      utilization_volume := p.2.base.total_volume / p.2.base.max_volume }

/-- The KPI dict of lines 429-437. -/
structure Kpis where
  total_cost_eur : ℚ
  cost_ratio : ℚ
  avg_container_utilization : ℚ
  cycle_time_improvement : ℚ
  total_containers : Nat
  total_weight_kg : ℚ
  total_volume_m3 : ℚ
deriving DecidableEq

/-- Python division: none models the ZeroDivisionError raised on a zero
denominator. -/
def pyDiv (a b : ℚ) : Option ℚ :=
  if b = 0 then none else some (a / b)

/-- _calculate_kpis (lines 412-437).  The three divisions of lines 422,
425 and 427 can each raise ZeroDivisionError, modelled by pyDiv; the
cost ratio is the placeholder literal 0.92 and the optimized queue time
the fixed 15 percent reduction of line 426. -/
def calculate_kpis (routed : List RoutedContainer)
    (original_batches : List BatchItem) : Option Kpis :=
  let total_cost := (routed.map RoutedContainer.route_cost).sum
  let total_weight := (routed.map fun c => c.base.total_weight).sum
  let total_volume := (routed.map fun c => c.base.total_volume).sum
  let tcw := (routed.map fun c => c.base.max_weight).sum
  let tcv := (routed.map fun c => c.base.max_volume).sum
  (pyDiv total_weight tcw).bind fun uw =>
  (pyDiv total_volume tcv).bind fun uv =>
  (pyDiv ((original_batches.map fun b => (b.days_in_queue : ℚ)).sum)
      ((original_batches.length : ℚ))).bind fun oaq =>
  (pyDiv (oaq - oaq * (85/100)) oaq).map fun cti =>
    { total_cost_eur := total_cost, cost_ratio := 92/100,
      avg_container_utilization := (uw + uv) / 2,
      cycle_time_improvement := cti,
      total_containers := routed.length,
      total_weight_kg := total_weight, total_volume_m3 := total_volume }

/-- Python dict assignment d[k] = v: overwrite in place when the key
exists, append otherwise. -/
def dictInsert {α : Type} : List (String × α) → String → α → List (String × α)
  | [], k, v => [(k, v)]
  | (k1, v1) :: rest, k, v =>
    if k1 = k then (k, v) :: rest else (k1, v1) :: dictInsert rest k v

/-- Python dict subscript d[k]: none models the KeyError raised on a
missing key. -/
def dictGet {α : Type} : List (String × α) → String → Option α
  | [], _ => none
  | (k1, v1) :: rest, k => if k1 = k then some v1 else dictGet rest k

/-- _heuristic_mode_selection (lines 288-310): per batch, the feasible
route of lowest total_cost(batch weight), else the first route when one
exists (None otherwise); results are written into a dict keyed by
batch_id.  The constraints dict is received and never read. -/
def heuristic_mode_selection (batches : List BatchItem) (routes : List Route)
    (constraints : Constraints) : List (String × Option String) :=
  batches.foldl (fun assignment b =>
    match bestRouteAux b.weight_kg b.volume_m3 none routes with
    | some p => dictInsert assignment b.batch_id (some p.1.route_id)
    | none => dictInsert assignment b.batch_id (routes.head?.map Route.route_id))
    []

/-- The dict comprehension of _optimize_transport_mode lines 126-127:
for b in batches, for r in routes, assign x[batch_id] = a fresh
single-entry inner dict holding only that route's variable name —
each (b, r) step overwrites the whole inner dict for the batch. -/
def buildX (batches : List BatchItem) (routes : List Route) :
    List (String × List (String × String)) :=
  batches.foldl (fun d b =>
    routes.foldl (fun d2 r =>
      dictInsert d2 b.batch_id
        [(r.route_id, "x_" ++ b.batch_id ++ "_" ++ r.route_id)]) d) []

/-- The double subscript x[b.batch_id][r.route_id] used on lines
130-159; none models a KeyError. -/
def lookupVar (x : List (String × List (String × String)))
    (bid rid : String) : Option String :=
  (dictGet x bid).bind fun inner => dictGet inner rid

/-- Fail-fast sequencing of a fallible map, as a Python loop raising at
the first missing key. -/
def optMap {α β : Type} (f : α → Option β) : List α → Option (List β)
  | [] => some []
  | a :: rest =>
    match f a, optMap f rest with
    | some b, some bs => some (b :: bs)
    | _, _ => none

/-- The assignment-constraint construction of lines 129-130: for every
batch, read x[batch_id][route_id] for every route to build the
sum-equals-one constraint; none models the KeyError raised when the
comprehension of lines 126-127 dropped a variable. -/
def assignmentConstraintVars (batches : List BatchItem) (routes : List Route) :
    Option (List (List String)) :=
  let x := buildX batches routes
  optMap (fun b => optMap (fun r => lookupVar x b.batch_id r.route_id) routes)
    batches

/-- The result bundle of optimize_shipment_plan lines 107-112. -/
structure OptimizationResult where
  optimized_plan : List ContainerPlan
  kpis : Kpis
  risk_analysis : RiskResult
  otif_compliance : OtifResult
deriving DecidableEq

/-- Lines 102-114 of optimize_shipment_plan, downstream of the mode
assignment: packing, routing, risk, OTIF validation and the result
bundle; none models a ZeroDivisionError escaping from _calculate_kpis. -/
def optimize_from_assign (batches : List BatchItem) (routes : List Route)
    (constraints : Constraints) (mode_assign : List (String × Option String))
    (today : Int) (jitter : List (List ℚ)) : Option OptimizationResult :=
  let packed := optimize_container_packing batches mode_assign
  let routed := optimize_routing packed routes
  let risk := monte_carlo_risk_assessment routed today jitter
  let otif := validate_otif_constraints routed constraints
  (calculate_kpis routed batches).map fun k =>
    { optimized_plan := compile_shipment_plan routed, kpis := k,
      risk_analysis := risk, otif_compliance := otif }

/-- optimize_shipment_plan (lines 96-114) on the heuristic path (the
solver-unavailable branch of _optimize_transport_mode, line 119-120);
today and jitter make the implicit clock and rng explicit. -/
def optimize_shipment_plan (batches : List BatchItem) (routes : List Route)
    (constraints : Constraints) (today : Int) (jitter : List (List ℚ)) :
    Option OptimizationResult :=
  optimize_from_assign batches routes constraints
    (heuristic_mode_selection batches routes constraints) today jitter

theorem optimize_routing_map_base (containers : List Container)
    (routes : List Route) :
    (optimize_routing containers routes).map RoutedContainer.base = containers := by
  induction containers with
  | nil => rfl
  | cons c cs ih =>
    simp only [optimize_routing, List.map_cons] at ih ⊢
    cases h : bestRouteAux c.total_weight c.total_volume none routes <;>
      simp [h, ih]

/-- C1: for every non-empty batch list and non-empty route list, and for
any batch-to-route assignment (LP, heuristic or arbitrary), the
concatenation of the member lists of the routed containers is exactly
the input batch list — every batch lands in exactly one container, none
dropped, none duplicated — and the compiled plan has exactly one row
per container. -/
theorem coverage_every_batch_exactly_once (batches : List BatchItem)
    (routes : List Route) (mode_assign : List (String × Option String))
    (hb : batches ≠ []) (hr : routes ≠ []) :
    ((optimize_routing (optimize_container_packing batches mode_assign) routes).map
        fun rc => rc.base.items).flatten = batches ∧
    (compile_shipment_plan
        (optimize_routing (optimize_container_packing batches mode_assign) routes)).length =
      (optimize_routing (optimize_container_packing batches mode_assign) routes).length := by
  constructor
  · have h1 : ((optimize_routing (optimize_container_packing batches mode_assign) routes).map
        fun rc => rc.base.items) =
        ((optimize_routing (optimize_container_packing batches mode_assign) routes).map
          RoutedContainer.base).map Container.items := by
      rw [List.map_map]
      rfl
    rw [h1, optimize_routing_map_base, optimize_container_packing, packAux_flatten]
    rfl
  · simp [compile_shipment_plan]

/-- Concrete batch for the C1 witness. -/
def w1batch : BatchItem :=
  { batch_id := "B1", product := "P", quantity := 1, value_eur := 1,
    weight_kg := 1, volume_m3 := 1, priority := "Low", due_date := 737000,
    current_station := "S", destination := "D", days_in_queue := 1 }

/-- Concrete route for the C1 witness. -/
def w1route : Route :=
  { route_id := "R1", origin := "O", destination := "D",
    transport_mode := "Air", capacity_kg := 10, capacity_m3 := 10,
    cost_per_kg := 1, transit_days := 3 }

theorem coverage_witness :
    ((optimize_routing (optimize_container_packing [w1batch] []) [w1route]).map
        fun rc => rc.base.items).flatten = [w1batch] :=
  (coverage_every_batch_exactly_once [w1batch] [w1route] [] (by simp) (by simp)).1

/-- C10: container packing never reads the mode assignment it receives,
so any two assignments produce identical packed containers and an
identical engine result bundle (plan, KPIs, risk analysis, OTIF
compliance) for the same batches, routes, constraints, date and random
draws. -/
theorem mode_assign_noninterference (batches : List BatchItem)
    (routes : List Route) (constraints : Constraints) (today : Int)
    (jitter : List (List ℚ)) (a1 a2 : List (String × Option String)) :
    optimize_container_packing batches a1 = optimize_container_packing batches a2 ∧
    optimize_from_assign batches routes constraints a1 today jitter =
      optimize_from_assign batches routes constraints a2 today jitter :=
  ⟨rfl, rfl⟩

/-- C6: with zero routed containers the Monte-Carlo risk assessment
returns the fixed conservative defaults (OTIF mean 0.8, probability
below 80 of 0.2, mean delay 2 days, P95 delay 5 days, risk score 25)
for every date and every jitter matrix — the simulation never runs. -/
theorem risk_assessment_empty_defaults (today : Int) (jitter : List (List ℚ)) :
    monte_carlo_risk_assessment [] today jitter =
      { otif_mean := 4/5, probability_below_80 := 1/5,
        mean_delay_days := 2, p95_delay_days := 5, risk_score := 25 } :=
  rfl

/-- Concrete batch exercising the LP comprehension bug for C2. -/
def w2batch : BatchItem :=
  { batch_id := "B1", product := "P", quantity := 1, value_eur := 1,
    weight_kg := 1, volume_m3 := 1, priority := "Low", due_date := 737000,
    current_station := "S", destination := "D", days_in_queue := 1 }

/-- First of the two routes exercising the LP comprehension bug. -/
def w2r1 : Route :=
  { route_id := "R1", origin := "O", destination := "D",
    transport_mode := "Air", capacity_kg := 10, capacity_m3 := 10,
    cost_per_kg := 1, transit_days := 3 }

/-- Second of the two routes exercising the LP comprehension bug. -/
def w2r2 : Route :=
  { route_id := "R2", origin := "O", destination := "D",
    transport_mode := "Sea", capacity_kg := 10, capacity_m3 := 10,
    cost_per_kg := 1, transit_days := 3 }

/-- C2: with one batch and two distinct routes, the dict comprehension
of lines 126-127 leaves only the last route's variable for the batch,
so building the per-batch assignment constraint of lines 129-130 hits a
missing key — the modelled KeyError (none) — instead of producing one
binary variable per (batch, route) pair; the exception escapes
_optimize_transport_mode with no heuristic fallback. -/
theorem lp_constraint_build_keyerror :
    assignmentConstraintVars [w2batch] [w2r1, w2r2] = none := by
  rfl

/-- Route used by the C7 counterexample. -/
def w7route : Route :=
  { route_id := "R1", origin := "O", destination := "D",
    transport_mode := "Air", capacity_kg := 10, capacity_m3 := 10,
    cost_per_kg := 1, transit_days := 3 }

/-- C7 counterexample: on an empty batch list the public entry point
does not return a result bundle — _calculate_kpis divides by the zero
total container capacity and the zero batch count, and the modelled
ZeroDivisionError (none) escapes. -/
theorem empty_input_total_counterexample :
    optimize_shipment_plan [] [w7route] defaultConstraints 737000 [] = none := by
  rfl

/-- C7 amended: for an empty batch list the risk-assessment and OTIF
steps do produce their fixed conservative defaults, but
optimize_shipment_plan itself is not total: the KPI step raises
ZeroDivisionError (modelled none), for every route list, constraints,
date and jitter. -/
theorem empty_batches_not_total (routes : List Route)
    (constraints : Constraints) (today : Int) (jitter : List (List ℚ)) :
    optimize_shipment_plan [] routes constraints today jitter = none ∧
    monte_carlo_risk_assessment
        (optimize_routing (optimize_container_packing [] []) routes) today jitter =
      defaultRiskResult ∧
    validate_otif_constraints
        (optimize_routing (optimize_container_packing [] []) routes) constraints =
      { otif_rate := 0, on_time_containers := 0, total_containers := 0,
        meets_target := false } := by
  refine ⟨rfl, rfl, ?_⟩
  simp only [optimize_container_packing, packAux, emptyContainer,
    optimize_routing, List.map_nil, validate_otif_constraints]
  norm_num

theorem packAux_consistent (bs : List BatchItem) :
    ∀ cur : Container,
      cur.total_weight = (cur.items.map BatchItem.weight_kg).sum →
      cur.total_volume = (cur.items.map BatchItem.volume_m3).sum →
      cur.max_weight = 25000 → cur.max_volume = 12500 →
      ∀ c ∈ packAux cur bs,
        c.total_weight = (c.items.map BatchItem.weight_kg).sum ∧
        c.total_volume = (c.items.map BatchItem.volume_m3).sum ∧
        c.max_weight = 25000 ∧ c.max_volume = 12500 := by
  induction bs with
  | nil =>
    intro cur hw hv hmw hmv c hc
    by_cases h : cur.items.isEmpty
    · simp [packAux, h] at hc
    · simp only [packAux, h, Bool.false_eq_true, if_false, List.mem_singleton] at hc
      subst hc
      exact ⟨hw, hv, hmw, hmv⟩
  | cons b rest ih =>
    intro cur hw hv hmw hmv c hc
    by_cases hfit : cur.total_weight + b.weight_kg ≤ cur.max_weight ∧
        cur.total_volume + b.volume_m3 ≤ cur.max_volume
    · rw [packAux, if_pos hfit] at hc
      exact ih
        { items := cur.items ++ [b],
          total_weight := cur.total_weight + b.weight_kg,
          total_volume := cur.total_volume + b.volume_m3,
          max_weight := cur.max_weight, max_volume := cur.max_volume }
        (by simp [hw]) (by simp [hv]) hmw hmv c hc
    · rw [packAux, if_neg hfit] at hc
      rcases List.mem_append.mp hc with h1 | h2
      · by_cases hemp : cur.items.isEmpty
        · simp [hemp] at h1
        · simp only [hemp, Bool.false_eq_true, if_false, List.mem_singleton] at h1
          subst h1
          exact ⟨hw, hv, hmw, hmv⟩
      · exact ih _ (by simp) (by simp) rfl rfl c h2

theorem packAux_within (bs : List BatchItem) :
    ∀ cur : Container, cur.max_weight = 25000 → cur.max_volume = 12500 →
      cur.total_weight ≤ 25000 → cur.total_volume ≤ 12500 →
      (∀ b ∈ bs, b.weight_kg ≤ 25000 ∧ b.volume_m3 ≤ 12500) →
      ∀ c ∈ packAux cur bs, c.total_weight ≤ 25000 ∧ c.total_volume ≤ 12500 := by
  induction bs with
  | nil =>
    intro cur hmw hmv hw hv hfits c hc
    by_cases h : cur.items.isEmpty
    · simp [packAux, h] at hc
    · simp only [packAux, h, Bool.false_eq_true, if_false, List.mem_singleton] at hc
      subst hc
      exact ⟨hw, hv⟩
  | cons b rest ih =>
    intro cur hmw hmv hw hv hfits c hc
    by_cases hfit : cur.total_weight + b.weight_kg ≤ cur.max_weight ∧
        cur.total_volume + b.volume_m3 ≤ cur.max_volume
    · rw [packAux, if_pos hfit] at hc
      refine ih
        { items := cur.items ++ [b],
          total_weight := cur.total_weight + b.weight_kg,
          total_volume := cur.total_volume + b.volume_m3,
          max_weight := cur.max_weight, max_volume := cur.max_volume }
        hmw hmv ?_ ?_
        (fun x hx => hfits x (List.mem_cons_of_mem _ hx)) c hc
      · exact le_of_le_of_eq hfit.1 hmw
      · exact le_of_le_of_eq hfit.2 hmv
    · rw [packAux, if_neg hfit] at hc
      rcases List.mem_append.mp hc with h1 | h2
      · by_cases hemp : cur.items.isEmpty
        · simp [hemp] at h1
        · simp only [hemp, Bool.false_eq_true, if_false, List.mem_singleton] at h1
          subst h1
          exact ⟨hw, hv⟩
      · refine ih _ rfl rfl ?_ ?_
          (fun x hx => hfits x (List.mem_cons_of_mem _ hx)) c h2
        · exact (hfits b (List.mem_cons_self _ _)).1
        · exact (hfits b (List.mem_cons_self _ _)).2

theorem packAux_overflow_singleton (bs : List BatchItem) :
    ∀ cur : Container,
      (cur.items.length ≤ 1 ∨
        (cur.total_weight ≤ cur.max_weight ∧ cur.total_volume ≤ cur.max_volume)) →
      ∀ c ∈ packAux cur bs,
        c.items.length ≤ 1 ∨
          (c.total_weight ≤ c.max_weight ∧ c.total_volume ≤ c.max_volume) := by
  induction bs with
  | nil =>
    intro cur hinv c hc
    by_cases h : cur.items.isEmpty
    · simp [packAux, h] at hc
    · simp only [packAux, h, Bool.false_eq_true, if_false, List.mem_singleton] at hc
      subst hc
      exact hinv
  | cons b rest ih =>
    intro cur hinv c hc
    by_cases hfit : cur.total_weight + b.weight_kg ≤ cur.max_weight ∧
        cur.total_volume + b.volume_m3 ≤ cur.max_volume
    · rw [packAux, if_pos hfit] at hc
      exact ih _ (Or.inr ⟨hfit.1, hfit.2⟩) c hc
    · rw [packAux, if_neg hfit] at hc
      rcases List.mem_append.mp hc with h1 | h2
      · by_cases hemp : cur.items.isEmpty
        · simp [hemp] at h1
        · simp only [hemp, Bool.false_eq_true, if_false, List.mem_singleton] at h1
          subst h1
          exact hinv
      · exact ih _ (Or.inl (by simp)) c h2

theorem packAux_mem_ne_nil (bs : List BatchItem) :
    ∀ cur : Container, ∀ c ∈ packAux cur bs, c.items ≠ [] := by
  induction bs with
  | nil =>
    intro cur c hc
    by_cases h : cur.items.isEmpty
    · simp [packAux, h] at hc
    · simp only [packAux, h, Bool.false_eq_true, if_false, List.mem_singleton] at hc
      subst hc
      exact fun hnil => h (by simp [hnil])
  | cons b rest ih =>
    intro cur c hc
    by_cases hfit : cur.total_weight + b.weight_kg ≤ cur.max_weight ∧
        cur.total_volume + b.volume_m3 ≤ cur.max_volume
    · rw [packAux, if_pos hfit] at hc
      exact ih _ c hc
    · rw [packAux, if_neg hfit] at hc
      rcases List.mem_append.mp hc with h1 | h2
      · by_cases hemp : cur.items.isEmpty
        · simp [hemp] at h1
        · simp only [hemp, Bool.false_eq_true, if_false, List.mem_singleton] at h1
          subst h1
          exact fun hnil => hemp (by simp [hnil])
      · exact ih _ c h2

/-- C3: if every batch individually fits the fixed per-container
ceilings (25000 kg, 12500 m3) then every packed container's total
member weight and volume respect the ceilings; and unconditionally, a
container whose member totals exceed a ceiling holds exactly one
(oversized) batch — capacity is enforced add-by-add during the single
packing pass, never rebalanced. -/
theorem packing_capacity_invariant (batches : List BatchItem)
    (mode_assign : List (String × Option String)) :
    ((∀ b ∈ batches, b.weight_kg ≤ 25000 ∧ b.volume_m3 ≤ 12500) →
      ∀ c ∈ optimize_container_packing batches mode_assign,
        (c.items.map BatchItem.weight_kg).sum ≤ 25000 ∧
        (c.items.map BatchItem.volume_m3).sum ≤ 12500) ∧
    (∀ c ∈ optimize_container_packing batches mode_assign,
      25000 < (c.items.map BatchItem.weight_kg).sum ∨
          12500 < (c.items.map BatchItem.volume_m3).sum →
        c.items.length = 1) := by
  constructor
  · intro hfits c hc
    obtain ⟨hcw, hcv, _, _⟩ :=
      packAux_consistent batches emptyContainer (by simp [emptyContainer])
        (by simp [emptyContainer]) rfl rfl c hc
    have hle := packAux_within batches emptyContainer rfl rfl
      (by norm_num [emptyContainer]) (by norm_num [emptyContainer]) hfits c hc
    exact ⟨hcw ▸ hle.1, hcv ▸ hle.2⟩
  · intro c hc hover
    obtain ⟨hcw, hcv, hmw, hmv⟩ :=
      packAux_consistent batches emptyContainer (by simp [emptyContainer])
        (by simp [emptyContainer]) rfl rfl c hc
    have hdisj := packAux_overflow_singleton batches emptyContainer
      (Or.inl (by simp [emptyContainer])) c hc
    have hne := packAux_mem_ne_nil batches emptyContainer c hc
    rcases hdisj with hlen | hwithin
    · have hpos : 0 < c.items.length := List.length_pos.mpr hne
      omega
    · exfalso
      rcases hover with hw | hv
      · rw [← hcw] at hw
        linarith [hwithin.1]
      · rw [← hcv] at hv
        linarith [hwithin.2]

/-- Concrete batch for the C3 witness. -/
def w3batch : BatchItem :=
  { batch_id := "B1", product := "P", quantity := 1, value_eur := 1,
    weight_kg := 100, volume_m3 := 1, priority := "Low", due_date := 737000,
    current_station := "S", destination := "D", days_in_queue := 1 }

/-- The single container that packing produces for the C3 witness. -/
def w3container : Container :=
  { items := [w3batch], total_weight := 100, total_volume := 1,
    max_weight := 25000, max_volume := 12500 }

theorem packing_capacity_witness :
    (w3container.items.map BatchItem.weight_kg).sum ≤ 25000 ∧
    (w3container.items.map BatchItem.volume_m3).sum ≤ 12500 :=
  (packing_capacity_invariant [w3batch] []).1
    (by intro b hb; rw [List.mem_singleton] at hb; subst hb; norm_num [w3batch])
    w3container
    (by norm_num [optimize_container_packing, packAux, emptyContainer,
      w3container, w3batch, Container.mk.injEq])

theorem bestRouteAux_some (w v : ℚ) (rs : List Route) :
    ∀ p : Route × ℚ, ∃ q : Route × ℚ, bestRouteAux w v (some p) rs = some q := by
  induction rs with
  | nil => intro p; exact ⟨p, rfl⟩
  | cons r rest ih =>
    intro p
    by_cases hf : w ≤ r.capacity_kg ∧ v ≤ r.capacity_m3
    · simp only [bestRouteAux, if_pos hf]
      by_cases hlt : r.total_cost w < p.2
      · rw [if_pos hlt]; exact ih _
      · rw [if_neg hlt]; exact ih _
    · simp only [bestRouteAux, if_neg hf]
      exact ih p

theorem bestRouteAux_feasible_ne_none (w v : ℚ) (rs : List Route) :
    ∀ best : Option (Route × ℚ), ∀ r ∈ rs,
      (w ≤ r.capacity_kg ∧ v ≤ r.capacity_m3) →
      bestRouteAux w v best rs ≠ none := by
  induction rs with
  | nil => intro best r hr; simp at hr
  | cons r0 rest ih =>
    intro best r hr hfeas
    by_cases hf0 : w ≤ r0.capacity_kg ∧ v ≤ r0.capacity_m3
    · cases best with
      | none =>
        simp only [bestRouteAux, if_pos hf0]
        obtain ⟨q, hq⟩ := bestRouteAux_some w v rest (r0, r0.total_cost w)
        simp [hq]
      | some p =>
        simp only [bestRouteAux, if_pos hf0]
        by_cases hlt : r0.total_cost w < p.2
        · rw [if_pos hlt]
          obtain ⟨q, hq⟩ := bestRouteAux_some w v rest (r0, r0.total_cost w)
          simp [hq]
        · rw [if_neg hlt]
          obtain ⟨q, hq⟩ := bestRouteAux_some w v rest p
          simp [hq]
    · have hmem : r ∈ rest := by
        rcases List.mem_cons.mp hr with heq | hmem
        · exact absurd hfeas (heq ▸ hf0)
        · exact hmem
      cases best with
      | none =>
        simp only [bestRouteAux, if_neg hf0]
        exact ih none r hmem hfeas
      | some p =>
        simp only [bestRouteAux, if_neg hf0]
        exact ih (some p) r hmem hfeas

theorem bestRouteAux_le_best (w v : ℚ) (rs : List Route) :
    ∀ pb p : Route × ℚ, bestRouteAux w v (some pb) rs = some p → p.2 ≤ pb.2 := by
  induction rs with
  | nil =>
    intro pb p h
    simp only [bestRouteAux] at h
    rw [Option.some_inj] at h
    exact le_of_eq (congrArg Prod.snd h.symm)
  | cons r rest ih =>
    intro pb p h
    by_cases hf : w ≤ r.capacity_kg ∧ v ≤ r.capacity_m3
    · simp only [bestRouteAux, if_pos hf] at h
      by_cases hlt : r.total_cost w < pb.2
      · rw [if_pos hlt] at h
        exact (ih _ _ h).trans (le_of_lt hlt)
      · rw [if_neg hlt] at h
        exact ih _ _ h
    · simp only [bestRouteAux, if_neg hf] at h
      exact ih _ _ h

theorem bestRouteAux_min (w v : ℚ) (rs : List Route) :
    ∀ (best : Option (Route × ℚ)) (p : Route × ℚ),
      bestRouteAux w v best rs = some p →
      ∀ r ∈ rs, (w ≤ r.capacity_kg ∧ v ≤ r.capacity_m3) →
        p.2 ≤ r.total_cost w := by
  induction rs with
  | nil => intro best p h r hr; simp at hr
  | cons r0 rest ih =>
    intro best p h r hr hfeas
    rcases List.mem_cons.mp hr with heq | hmem
    · subst heq
      cases best with
      | none =>
        simp only [bestRouteAux, if_pos hfeas] at h
        exact bestRouteAux_le_best w v rest _ _ h
      | some pb =>
        simp only [bestRouteAux, if_pos hfeas] at h
        by_cases hlt : r.total_cost w < pb.2
        · rw [if_pos hlt] at h
          exact bestRouteAux_le_best w v rest _ _ h
        · rw [if_neg hlt] at h
          exact (bestRouteAux_le_best w v rest _ _ h).trans (not_lt.mp hlt)
    · by_cases hf0 : w ≤ r0.capacity_kg ∧ v ≤ r0.capacity_m3
      · cases best with
        | none =>
          simp only [bestRouteAux, if_pos hf0] at h
          exact ih _ _ h r hmem hfeas
        | some pb =>
          simp only [bestRouteAux, if_pos hf0] at h
          by_cases hlt : r0.total_cost w < pb.2
          · rw [if_pos hlt] at h
            exact ih _ _ h r hmem hfeas
          · rw [if_neg hlt] at h
            exact ih _ _ h r hmem hfeas
      · cases best with
        | none =>
          simp only [bestRouteAux, if_neg hf0] at h
          exact ih _ _ h r hmem hfeas
        | some pb =>
          simp only [bestRouteAux, if_neg hf0] at h
          exact ih _ _ h r hmem hfeas

theorem bestRouteAux_none_or_feasible (w v : ℚ) (rs : List Route) :
    ∀ best : Option (Route × ℚ),
      bestRouteAux w v best rs = best ∨
      ∃ r, r ∈ rs ∧ (w ≤ r.capacity_kg ∧ v ≤ r.capacity_m3) ∧
        bestRouteAux w v best rs = some (r, r.total_cost w) := by
  induction rs with
  | nil => intro best; left; cases best <;> rfl
  | cons r0 rest ih =>
    intro best
    by_cases hf : w ≤ r0.capacity_kg ∧ v ≤ r0.capacity_m3
    · cases best with
      | none =>
        simp only [bestRouteAux, if_pos hf]
        rcases ih (some (r0, r0.total_cost w)) with h | ⟨r, hr, hfe, he⟩
        · exact Or.inr ⟨r0, List.mem_cons_self _ _, hf, h⟩
        · exact Or.inr ⟨r, List.mem_cons_of_mem _ hr, hfe, he⟩
      | some pb =>
        simp only [bestRouteAux, if_pos hf]
        by_cases hlt : r0.total_cost w < pb.2
        · rw [if_pos hlt]
          rcases ih (some (r0, r0.total_cost w)) with h | ⟨r, hr, hfe, he⟩
          · exact Or.inr ⟨r0, List.mem_cons_self _ _, hf, h⟩
          · exact Or.inr ⟨r, List.mem_cons_of_mem _ hr, hfe, he⟩
        · rw [if_neg hlt]
          rcases ih (some pb) with h | ⟨r, hr, hfe, he⟩
          · exact Or.inl h
          · exact Or.inr ⟨r, List.mem_cons_of_mem _ hr, hfe, he⟩
    · cases best with
      | none =>
        simp only [bestRouteAux, if_neg hf]
        rcases ih none with h | ⟨r, hr, hfe, he⟩
        · exact Or.inl h
        · exact Or.inr ⟨r, List.mem_cons_of_mem _ hr, hfe, he⟩
      | some pb =>
        simp only [bestRouteAux, if_neg hf]
        rcases ih (some pb) with h | ⟨r, hr, hfe, he⟩
        · exact Or.inl h
        · exact Or.inr ⟨r, List.mem_cons_of_mem _ hr, hfe, he⟩

theorem bestRouteAux_all_infeasible (w v : ℚ) (rs : List Route) :
    ∀ best : Option (Route × ℚ),
      (∀ r ∈ rs, ¬(w ≤ r.capacity_kg ∧ v ≤ r.capacity_m3)) →
      bestRouteAux w v best rs = best := by
  induction rs with
  | nil => intro best h; cases best <;> rfl
  | cons r0 rest ih =>
    intro best h
    cases best with
    | none =>
      simp only [bestRouteAux, if_neg (h r0 (List.mem_cons_self _ _))]
      exact ih none (fun r hr => h r (List.mem_cons_of_mem _ hr))
    | some p =>
      simp only [bestRouteAux, if_neg (h r0 (List.mem_cons_self _ _))]
      exact ih (some p) (fun r hr => h r (List.mem_cons_of_mem _ hr))

/-- C8: every routed container either carries a feasible route of
minimal container_weight * cost_per_kg among the feasible routes, with
route_cost equal to that minimum, or — when no route accommodates its
totals — carries the first route of the non-empty input list with
route_cost 0. -/
theorem routing_finalization_spec (containers : List Container)
    (routes : List Route) (hr : routes ≠ []) :
    ∀ rc ∈ optimize_routing containers routes,
      ((∃ r ∈ routes, rc.base.total_weight ≤ r.capacity_kg ∧
          rc.base.total_volume ≤ r.capacity_m3) →
        ∃ r, rc.route = some r ∧ r ∈ routes ∧
          rc.base.total_weight ≤ r.capacity_kg ∧
          rc.base.total_volume ≤ r.capacity_m3 ∧
          rc.route_cost = r.total_cost rc.base.total_weight ∧
          ∀ r2 ∈ routes, rc.base.total_weight ≤ r2.capacity_kg →
            rc.base.total_volume ≤ r2.capacity_m3 →
            rc.route_cost ≤ r2.total_cost rc.base.total_weight) ∧
      ((∀ r ∈ routes, ¬(rc.base.total_weight ≤ r.capacity_kg ∧
          rc.base.total_volume ≤ r.capacity_m3)) →
        rc.route = routes.head? ∧ rc.route_cost = 0) := by
  intro rc hrc
  simp only [optimize_routing, List.mem_map] at hrc
  obtain ⟨c, hc, heq⟩ := hrc
  cases hbra : bestRouteAux c.total_weight c.total_volume none routes with
  | some p =>
    rw [hbra] at heq
    subst heq
    constructor
    · intro _
      rcases bestRouteAux_none_or_feasible c.total_weight c.total_volume
          routes none with h | ⟨r, hrmem, hfe, he⟩
      · rw [h] at hbra; exact absurd hbra (by simp)
      · rw [he] at hbra
        rw [Option.some_inj] at hbra
        refine ⟨r, by simp [← hbra], hrmem, hfe.1, hfe.2, by simp [← hbra], ?_⟩
        intro r2 hr2 hw2 hv2
        have := bestRouteAux_min c.total_weight c.total_volume routes none
          (r, r.total_cost c.total_weight) he r2 hr2 ⟨hw2, hv2⟩
        simpa [← hbra] using this
    · intro hnone
      have := bestRouteAux_all_infeasible c.total_weight c.total_volume
        routes none hnone
      rw [this] at hbra
      exact absurd hbra (by simp)
  | none =>
    rw [hbra] at heq
    subst heq
    constructor
    · intro hex
      obtain ⟨r, hrmem, hfe⟩ := hex
      exact absurd hbra
        (bestRouteAux_feasible_ne_none c.total_weight c.total_volume routes
          none r hrmem hfe)
    · intro _
      exact ⟨rfl, rfl⟩

/-- The single packed container of the C8 witness scenario. -/
def w8cont : Container :=
  { items := [], total_weight := 150, total_volume := 3/2,
    max_weight := 25000, max_volume := 12500 }

/-- The single route of the C8 witness scenario. -/
def w8route : Route :=
  { route_id := "R1", origin := "O", destination := "D",
    transport_mode := "Air", capacity_kg := 1000, capacity_m3 := 10,
    cost_per_kg := 5, transit_days := 3 }

/-- The routed container the engine produces in the C8 witness
scenario. -/
def w8rc : RoutedContainer :=
  { base := w8cont, route := some w8route, route_cost := 750 }

theorem routing_finalization_witness :
    ∃ r, w8rc.route = some r ∧ r ∈ [w8route] ∧
      w8rc.base.total_weight ≤ r.capacity_kg ∧
      w8rc.base.total_volume ≤ r.capacity_m3 ∧
      w8rc.route_cost = r.total_cost w8rc.base.total_weight ∧
      ∀ r2 ∈ [w8route], w8rc.base.total_weight ≤ r2.capacity_kg →
        w8rc.base.total_volume ≤ r2.capacity_m3 →
        w8rc.route_cost ≤ r2.total_cost w8rc.base.total_weight :=
  (routing_finalization_spec [w8cont] [w8route] (by simp) w8rc
      (by norm_num [optimize_routing, bestRouteAux, w8cont, w8route, w8rc,
        Route.total_cost, RoutedContainer.mk.injEq])).1
    ⟨w8route, by simp, by norm_num [w8cont, w8route, w8rc]⟩

theorem onTimeSum_anti (ts ts2 : List ℚ)
    (h : List.Forall₂ (fun a b => a ≤ b) ts ts2) :
    ∀ ss js : List ℚ, onTimeSum ts2 ss js ≤ onTimeSum ts ss js := by
  induction h with
  | nil => intro ss js; simp [onTimeSum]
  | cons hab htail ih =>
    intro ss js
    cases ss with
    | nil => simp [onTimeSum]
    | cons s ss2 =>
      cases js with
      | nil => simp [onTimeSum]
      | cons j js2 =>
        simp only [onTimeSum]
        refine add_le_add ?_ (ih ss2 js2)
        split_ifs with h2 h3
        · exact le_refl 1
        · exact absurd (le_trans (by linarith) h2) h3
        · norm_num
        · exact le_refl 0

theorem delaySum_mono (ts ts2 : List ℚ)
    (h : List.Forall₂ (fun a b => a ≤ b) ts ts2) :
    ∀ ss js : List ℚ, delaySum ts ss js ≤ delaySum ts2 ss js := by
  induction h with
  | nil => intro ss js; simp [delaySum]
  | cons hab htail ih =>
    intro ss js
    cases ss with
    | nil => simp [delaySum]
    | cons s ss2 =>
      cases js with
      | nil => simp [delaySum]
      | cons j js2 =>
        simp only [delaySum]
        refine add_le_add (max_le_max (by linarith) (le_refl 0)) (ih ss2 js2)

theorem div_le_div_nat (a b : ℚ) (n : ℕ) (h : a ≤ b) : a / n ≤ b / n := by
  rcases Nat.eq_zero_or_pos n with h0 | hpos
  · simp [h0]
  · have hc : (0 : ℚ) < (n : ℚ) := by exact_mod_cast hpos
    exact (div_le_div_iff_of_pos_right hc).mpr h

theorem otifScore_anti (ts ts2 ss js : List ℚ)
    (h : List.Forall₂ (fun a b => a ≤ b) ts ts2) :
    otifScore ts2 ss js ≤ otifScore ts ss js := by
  unfold otifScore
  rw [← h.length_eq]
  exact div_le_div_nat _ _ ts.length (onTimeSum_anti ts ts2 h ss js)

theorem delayMeanRow_mono (ts ts2 ss js : List ℚ)
    (h : List.Forall₂ (fun a b => a ≤ b) ts ts2) :
    delayMeanRow ts ss js ≤ delayMeanRow ts2 ss js := by
  unfold delayMeanRow
  rw [← h.length_eq]
  exact div_le_div_nat _ _ ts.length (delaySum_mono ts ts2 h ss js)

theorem riskScore_mono (ts ts2 ss : List ℚ) (jitter : List (List ℚ))
    (h : List.Forall₂ (fun a b => a ≤ b) ts ts2) :
    riskScore ts ss jitter ≤ riskScore ts2 ss jitter := by
  unfold riskScore
  have hom : (jitter.map (otifScore ts2 ss)).sum ≤ (jitter.map (otifScore ts ss)).sum :=
    List.sum_le_sum fun row _ => otifScore_anti ts ts2 ss row h
  have hdm : (jitter.map (delayMeanRow ts ss)).sum ≤
      (jitter.map (delayMeanRow ts2 ss)).sum :=
    List.sum_le_sum fun row _ => delayMeanRow_mono ts ts2 ss row h
  have h1 : (jitter.map (otifScore ts2 ss)).sum / (jitter.length : ℚ) ≤
      (jitter.map (otifScore ts ss)).sum / (jitter.length : ℚ) :=
    div_le_div_nat _ _ jitter.length hom
  have h2 : (jitter.map (delayMeanRow ts ss)).sum / (jitter.length : ℚ) ≤
      (jitter.map (delayMeanRow ts2 ss)).sum / (jitter.length : ℚ) :=
    div_le_div_nat _ _ jitter.length hdm
  refine add_le_add ?_ ?_
  · nlinarith [h1]
  · exact min_le_min (by linarith) (le_refl 50)

theorem forall2_map_eq {α : Type} {f : α → ℚ} :
    ∀ xs ys : List α, List.Forall₂ (fun c c2 => f c = f c2) xs ys →
      xs.map f = ys.map f := by
  intro xs ys h
  induction h with
  | nil => rfl
  | cons hab htail ih => simp [hab, ih]

theorem forall2_map_le {α : Type} {f : α → ℚ} :
    ∀ xs ys : List α, List.Forall₂ (fun c c2 => f c ≤ f c2) xs ys →
      List.Forall₂ (fun a b => a ≤ b) (xs.map f) (ys.map f) := by
  intro xs ys h
  induction h with
  | nil => exact List.Forall₂.nil
  | cons hab htail ih => exact List.Forall₂.cons hab ih

/-- C9: holding the container set, the member due dates and the
per-trial jitter draws fixed, raising the containers' nominal transit
times pointwise cannot decrease the computed risk score of the Monte
Carlo assessment. -/
theorem risk_monotone_in_transit (routed routed2 : List RoutedContainer)
    (today : Int) (jitter : List (List ℚ))
    (hdue : List.Forall₂ (fun c c2 =>
      ((containerDue c today : ℚ) - (today : ℚ)) =
        ((containerDue c2 today : ℚ) - (today : ℚ))) routed routed2)
    (htr : List.Forall₂ (fun c c2 => containerTransit c ≤ containerTransit c2)
      routed routed2) :
    (monte_carlo_risk_assessment routed today jitter).risk_score ≤
      (monte_carlo_risk_assessment routed2 today jitter).risk_score := by
  by_cases hnil : routed = []
  · subst hnil
    have h2 : routed2 = [] := by cases hdue; rfl
    subst h2
    exact le_refl _
  · have hnil2 : routed2 ≠ [] := by
      intro h2
      subst h2
      cases hdue
      exact hnil rfl
    have hslack : routed.map (fun c => ((containerDue c today : ℚ) - (today : ℚ))) =
        routed2.map (fun c => ((containerDue c today : ℚ) - (today : ℚ))) :=
      forall2_map_eq routed routed2 hdue
    have htr2 : List.Forall₂ (fun a b => a ≤ b)
        (routed.map containerTransit) (routed2.map containerTransit) :=
      forall2_map_le routed routed2 htr
    have he1 : (routed.map containerTransit).isEmpty = false := by
      simp [List.isEmpty_iff, hnil]
    have he2 : (routed2.map containerTransit).isEmpty = false := by
      simp [List.isEmpty_iff, hnil2]
    simp only [monte_carlo_risk_assessment, he1, he2, Bool.false_eq_true,
      if_false]
    rw [hslack]
    exact riskScore_mono _ _ _ jitter htr2

/-- Member batch shared by both C9 witness containers. -/
def w9item : BatchItem :=
  { batch_id := "B1", product := "P", quantity := 1, value_eur := 1,
    weight_kg := 1, volume_m3 := 1, priority := "Low", due_date := 737010,
    current_station := "S", destination := "D", days_in_queue := 1 }

/-- Slower variant of the C9 witness route (transit 3 days). -/
def w9routeA : Route :=
  { route_id := "R1", origin := "O", destination := "D",
    transport_mode := "Air", capacity_kg := 10, capacity_m3 := 10,
    cost_per_kg := 1, transit_days := 3 }

/-- Faster-to-slower comparison route of the C9 witness (transit 5
days, all else equal). -/
def w9routeB : Route :=
  { route_id := "R1", origin := "O", destination := "D",
    transport_mode := "Air", capacity_kg := 10, capacity_m3 := 10,
    cost_per_kg := 1, transit_days := 5 }

/-- C9 witness container on the 3-day route. -/
def w9rcA : RoutedContainer :=
  { base := { items := [w9item], total_weight := 1, total_volume := 1,
              max_weight := 25000, max_volume := 12500 },
    route := some w9routeA, route_cost := 1 }

/-- C9 witness container on the 5-day route. -/
def w9rcB : RoutedContainer :=
  { base := { items := [w9item], total_weight := 1, total_volume := 1,
              max_weight := 25000, max_volume := 12500 },
    route := some w9routeB, route_cost := 1 }

theorem risk_monotone_witness :
    (monte_carlo_risk_assessment [w9rcA] 737000 [[0]]).risk_score ≤
      (monte_carlo_risk_assessment [w9rcB] 737000 [[0]]).risk_score :=
  risk_monotone_in_transit [w9rcA] [w9rcB] 737000 [[0]]
    (List.Forall₂.cons (by norm_num [containerDue, w9rcA, w9rcB]) List.Forall₂.nil)
    (List.Forall₂.cons
      (by norm_num [containerTransit, w9rcA, w9rcB, w9routeA, w9routeB])
      List.Forall₂.nil)

/-- C5 amended: the validator counts a container on-time iff it has a
route with transit_days at most 14, reports that count, the total and
their ratio (0 for no containers), and meets_target compares the rate
against the fixed literal 0.8 — the constraints dict, including any
configured min_otif_rate, is ignored entirely. -/
theorem otif_validator_spec (routed : List RoutedContainer)
    (constraints : Constraints) :
    (validate_otif_constraints routed constraints).on_time_containers =
      (routed.filter containerOnTime).length ∧
    (validate_otif_constraints routed constraints).total_containers =
      routed.length ∧
    (∀ c : RoutedContainer, containerOnTime c = true ↔
      ∃ r, c.route = some r ∧ r.transit_days ≤ 14) ∧
    (validate_otif_constraints routed constraints).otif_rate =
      (if 0 < routed.length then
        (((routed.filter containerOnTime).length : ℚ) / (routed.length : ℚ))
       else 0) ∧
    ((validate_otif_constraints routed constraints).meets_target = true ↔
      (4 : ℚ)/5 ≤ (validate_otif_constraints routed constraints).otif_rate) ∧
    (∀ c2 : Constraints, validate_otif_constraints routed c2 =
      validate_otif_constraints routed constraints) := by
  refine ⟨rfl, rfl, ?_, rfl, ?_, fun c2 => rfl⟩
  · intro c
    cases hr : c.route with
    | none => simp [containerOnTime, hr]
    | some r => simp [containerOnTime, hr]
  · simp [validate_otif_constraints]

/-- On-time route (transit 3 days) for the C5 scenario. -/
def c5routeFast : Route :=
  { route_id := "RF", origin := "O", destination := "D",
    transport_mode := "Air", capacity_kg := 1000, capacity_m3 := 100,
    cost_per_kg := 1, transit_days := 3 }

/-- Late route (transit 20 days) for the C5 scenario. -/
def c5routeSlow : Route :=
  { route_id := "RS", origin := "O", destination := "D",
    transport_mode := "Sea", capacity_kg := 1000, capacity_m3 := 100,
    cost_per_kg := 1, transit_days := 20 }

/-- A routed container on a given route, for the C5 scenario. -/
def c5cont (r : Route) : RoutedContainer :=
  { base := { items := [], total_weight := 0, total_volume := 0,
              max_weight := 25000, max_volume := 12500 },
    route := some r, route_cost := 0 }

/-- Five containers, four on-time and one late: OTIF rate 0.8. -/
def c5containers : List RoutedContainer :=
  [c5cont c5routeFast, c5cont c5routeFast, c5cont c5routeFast,
   c5cont c5routeFast, c5cont c5routeSlow]

/-- Constraints configuring a minimum OTIF rate of 0.9. -/
def c5constraints : Constraints :=
  { alpha := 1/100, max_transit_days := 21, min_otif_rate := 9/10 }

/-- C5 counterexample: with min_otif_rate configured to 0.9 and an OTIF
rate of exactly 0.8, the validator still reports meets_target, because
it compares against the hard-coded 0.8 and never reads the configured
minimum. -/
theorem otif_meets_target_counterexample :
    (validate_otif_constraints c5containers c5constraints).meets_target = true ∧
    ¬(c5constraints.min_otif_rate ≤
        (validate_otif_constraints c5containers c5constraints).otif_rate) := by
  constructor
  · norm_num [validate_otif_constraints, c5containers, c5cont, c5routeFast,
      c5routeSlow, containerOnTime, List.filter]
  · norm_num [validate_otif_constraints, c5containers, c5cont, c5routeFast,
      c5routeSlow, c5constraints, containerOnTime, List.filter]

theorem otif_validator_witness :
    (validate_otif_constraints [c5cont c5routeFast] defaultConstraints).meets_target
      = true := by
  have h := otif_validator_spec [c5cont c5routeFast] defaultConstraints
  refine h.2.2.2.2.1.mpr ?_
  rw [h.2.2.2.1]
  norm_num [c5cont, c5routeFast, containerOnTime, List.filter]

/-- First batch of the C4 scenario: 100 kg, 1 m3, priority Low. -/
def c4b1 : BatchItem :=
  { batch_id := "B1", product := "Prod", quantity := 1, value_eur := 1000,
    weight_kg := 100, volume_m3 := 1, priority := "Low", due_date := 737100,
    current_station := "S", destination := "EU", days_in_queue := 10 }

/-- Second batch of the C4 scenario: 50 kg, 0.5 m3, priority Low. -/
def c4b2 : BatchItem :=
  { batch_id := "B2", product := "Prod", quantity := 1, value_eur := 500,
    weight_kg := 50, volume_m3 := 1/2, priority := "Low", due_date := 737100,
    current_station := "S", destination := "EU", days_in_queue := 10 }

/-- The single route of the C4 scenario: 1000 kg / 10 m3, 5.0 per kg,
3 days transit. -/
def c4route : Route :=
  { route_id := "R1", origin := "O", destination := "EU",
    transport_mode := "Air", capacity_kg := 1000, capacity_m3 := 10,
    cost_per_kg := 5, transit_days := 3 }

/-- The shipment plan the engine compiles for the C4 scenario, with the
mode assignment produced by the heuristic path. -/
def c4plan : List ContainerPlan :=
  compile_shipment_plan (optimize_routing
    (optimize_container_packing [c4b1, c4b2]
      (heuristic_mode_selection [c4b1, c4b2] [c4route] defaultConstraints))
    [c4route])

/-- C4 counterexample: the claimed weight utilization 0.15 (= 150/1000,
against the route capacity) is not what the engine reports — the code
divides by the container capacity 25000, giving 0.006. -/
theorem small_scenario_counterexample :
    c4plan.map ContainerPlan.utilization_weight ≠ [(3 : ℚ)/20] := by
  norm_num [c4plan, compile_shipment_plan, optimize_routing,
    optimize_container_packing, packAux, emptyContainer, bestRouteAux,
    Route.total_cost, c4b1, c4b2, c4route, List.enum, List.enumFrom]

/-- C4 amended: both batches pack into one container routed on the
single route, with route cost 150 * 5 = 750, but the reported weight
utilization is 150/25000 = 0.006 (and volume utilization 1.5/12500),
measured against the fixed container capacity rather than the route
capacity. -/
theorem small_scenario_plan :
    c4plan =
      [{ container_id := "CONT_001", route_id := "R1",
         transport_mode := "Air", total_weight_kg := 150,
         total_volume_m3 := 3/2, route_cost_eur := 750, num_batches := 2,
         utilization_weight := 3/500, utilization_volume := 3/25000 }] := by
  norm_num [c4plan, compile_shipment_plan, optimize_routing,
    optimize_container_packing, packAux, emptyContainer, bestRouteAux,
    Route.total_cost, c4b1, c4b2, c4route, List.enum, List.enumFrom,
    ContainerPlan.mk.injEq, pad3]
  rfl

end PharmaOpt
